import Mathlib

/-!
SoftRF driver: the LK8EX1 sentence decoder.

A shallow embedding of `src/Device/Driver/Softrf.cpp` (functions `VARIOLK` and
`SoftrfDevice::ParseNMEA`) together with models of the collaborators the driver
calls (`VerifyNMEAChecksum`, `NMEAInputLine`, `NMEAInfo`, `Validity`,
`AtmosphericPressure`, `Temperature`).

Conventions.
* A C string is a `List Char` (7-bit ASCII text, no terminator).
* A `double` is an IEEE 754 binary64 value, kept as its sign, exponent and
  fraction bit fields. Converting a decimal field and dividing by 100 round to
  nearest, ties to even; `!=` is the comparison of the values, so an integer
  literal of the source is the double with that value.
* A function that writes through a reference returns the new value instead:
  `SoftrfDevice.ParseNMEA line info` returns the C++ return value and the
  snapshot after the call.
* The collaborators are not part of `Softrf.cpp`; each is modelled from the
  specification and says so in its doc comment. The theorems about the driver
  use them through their results only: the checksum verdict, the text of a
  field and the number a field parses to.
-/

namespace XCSoar

/-! ## The type `double` -/

/-- The C++ type `double`: an IEEE 754 binary64 value, as its three bit fields
(one sign bit, 11 exponent bits, 52 fraction bits). -/
structure Double where
  sign : Bool
  exponent : Fin 2048
  fraction : Fin 4503599627370496
deriving DecidableEq, Repr

/-- Zero with the given sign. -/
def Double.zero (sign : Bool) : Double :=
  { sign := sign, exponent := ⟨0, by decide⟩, fraction := ⟨0, by decide⟩ }

/-- Infinity with the given sign. -/
def Double.infinity (sign : Bool) : Double :=
  { sign := sign, exponent := ⟨2047, by decide⟩, fraction := ⟨0, by decide⟩ }

/-- The default quiet NaN. -/
def Double.quietNaN : Double :=
  { sign := false, exponent := ⟨2047, by decide⟩, fraction := ⟨2251799813685248, by decide⟩ }

/-- Exponent bits all set and a non-zero fraction. -/
def Double.isNaN (d : Double) : Bool :=
  d.exponent.val == 2047 && d.fraction.val != 0

/-- Exponent bits all set and a zero fraction. -/
def Double.isInfinite (d : Double) : Bool :=
  d.exponent.val == 2047 && d.fraction.val == 0

/-- Either of the two zeros. -/
def Double.isZero (d : Double) : Bool :=
  d.exponent.val == 0 && d.fraction.val == 0

/-- The double with the given sign whose exponent and fraction fields, read as
one number, are `mag`; past the largest finite double it is infinity. -/
def Double.ofMagnitude (sign : Bool) (mag : Nat) : Double :=
  if h : mag < 2047 * 4503599627370496 then
    { sign := sign
      exponent := ⟨mag / 4503599627370496, by omega⟩
      fraction := ⟨mag % 4503599627370496, by omega⟩ }
  else Double.infinity sign

/-- The number of binary digits of `n`, counted with at most `fuel` halvings. -/
def Double.bitLength : Nat → Nat → Nat
  | 0, _ => 0
  | fuel + 1, n => if n = 0 then 0 else Double.bitLength fuel (n / 2) + 1

/-- The integer `e` with `2 ^ e ≤ num / den < 2 ^ (e + 1)`, for positive `num`
and `den`. -/
def Double.floorLog2 (num den : Nat) : Int :=
  let e0 : Int := (Double.bitLength num num : Int) - (Double.bitLength den den : Int)
  if den * 2 ^ e0.toNat ≤ num * 2 ^ (-e0).toNat then e0 else e0 - 1

/-- The double nearest to `num / den` with the given sign, ties to even: the
rounding of every binary64 operation in the default rounding mode. Below the
normal range the spacing is that of the subnormals; a magnitude that rounds
past the largest finite double gives infinity. -/
def Double.round (sign : Bool) (num den : Nat) : Double :=
  if num = 0 then Double.zero sign
  else
    let e := max (Double.floorLog2 num den) (-1022)
    let ulp : Int := e - 52
    let n := num * 2 ^ (-ulp).toNat
    let d := den * 2 ^ ulp.toNat
    let q := n / d
    let r := n % d
    let m := if 2 * r < d then q else if d < 2 * r then q + 1 else if q % 2 = 0 then q else q + 1
    Double.ofMagnitude sign ((e + 1022).toNat * 4503599627370496 + m)

/-- An integer literal of the source used as a `double`. -/
def Double.ofNat (n : Nat) : Double := Double.round false n 1

/-- The integer significand of a finite double. -/
def Double.significand (d : Double) : Nat :=
  if d.exponent.val = 0 then d.fraction.val else 4503599627370496 + d.fraction.val

/-- The power of two that scales the significand of a finite double. -/
def Double.scale (d : Double) : Int :=
  if d.exponent.val = 0 then -1074 else (d.exponent.val : Int) - 1075

/-- The operator `/` on `double`. -/
def Double.div (a b : Double) : Double :=
  let sign := a.sign != b.sign
  if a.isNaN || b.isNaN then Double.quietNaN
  else if a.isInfinite then (if b.isInfinite then Double.quietNaN else Double.infinity sign)
  else if b.isInfinite then Double.zero sign
  else if b.isZero then (if a.isZero then Double.quietNaN else Double.infinity sign)
  else
    let k : Int := a.scale - b.scale
    Double.round sign (a.significand * 2 ^ k.toNat) (b.significand * 2 ^ (-k).toNat)

/-- Two doubles with the same sign, exponent and fraction bits. -/
def Double.sameBits (a b : Double) : Bool :=
  a.sign == b.sign && a.exponent.val == b.exponent.val && a.fraction.val == b.fraction.val

/-- The operator `==` on `double`: a NaN equals nothing, the two zeros are
equal. -/
def Double.eq (a b : Double) : Bool :=
  !a.isNaN && !b.isNaN && (Double.sameBits a b || (a.isZero && b.isZero))

/-- The operator `!=` on `double`. -/
def Double.ne (a b : Double) : Bool := !Double.eq a b

/-- The rational value of a finite double; infinities and NaN have none. -/
def Double.toRat (d : Double) : Option ℚ :=
  if d.exponent.val = 2047 then none
  else some ((if d.sign then -1 else 1) * (d.significand : ℚ) * (2 : ℚ) ^ d.scale)

/-! ## Collaborators of the driver -/

/-- Modelled from the spec: the `Validity` type of `NMEA/Validity.hpp`, the
freshness part of a measurement slot ("an available flag plus a last-update
timestamp"). -/
structure Validity where
  available : Bool
  last_update : Nat
deriving DecidableEq, Repr

/-- Modelled from the spec: `Validity::Update(now)`, "mark it available, stamp
it with the current process clock". -/
def Validity.Update (_v : Validity) (now : Nat) : Validity :=
  { available := true, last_update := now }

/-- Modelled from the spec: the `AtmosphericPressure` type of
`Atmosphere/Pressure.hpp`; the stored quantity is read in hectopascal. -/
structure AtmosphericPressure where
  hPa : Double
deriving DecidableEq, Repr

/-- Modelled from the spec: `AtmosphericPressure::HectoPascal(value)` builds
the pressure whose magnitude in hectopascal is `value`. -/
def AtmosphericPressure.HectoPascal (value : Double) : AtmosphericPressure :=
  { hPa := value }

/-- Modelled from the spec: the `Temperature` type of
`Atmosphere/Temperature.hpp`; the stored quantity is read in degrees
Celsius. -/
structure Temperature where
  celsius : Double
deriving DecidableEq, Repr

/-- Modelled from the spec: `Temperature::FromCelsius(value)`. -/
def Temperature.FromCelsius (value : Double) : Temperature :=
  { celsius := value }

/-- Modelled from the spec: the flight-state snapshot `NMEAInfo` of
`NMEA/Info.hpp`. The members named by `Softrf.cpp` are listed one by one; the
barometric-altitude slot stands for the neighbouring altitude measurement, and
`other` stands for every remaining member of the snapshot. -/
structure NMEAInfo (Other : Type) where
  clock : Nat
  static_pressure : AtmosphericPressure
  static_pressure_available : Validity
  baro_altitude : Double
  baro_altitude_available : Validity
  total_energy_vario : Double
  total_energy_vario_available : Validity
  temperature : Temperature
  temperature_available : Bool
  voltage : Double
  voltage_available : Validity
  other : Other
deriving DecidableEq

/-- Modelled from the spec: `NMEAInfo::ProvideStaticPressure`, the `provide`
operation on the static-pressure slot: overwrite the value, mark it available
and stamp it with the snapshot clock. -/
def NMEAInfo.ProvideStaticPressure {Other : Type} (info : NMEAInfo Other)
    (value : AtmosphericPressure) : NMEAInfo Other :=
  { info with
    static_pressure := value
    static_pressure_available := info.static_pressure_available.Update info.clock }

/-- Modelled from the spec: `NMEAInfo::ProvideTotalEnergyVario`, the `provide`
operation on the total-energy vario slot. -/
def NMEAInfo.ProvideTotalEnergyVario {Other : Type} (info : NMEAInfo Other)
    (value : Double) : NMEAInfo Other :=
  { info with
    total_energy_vario := value
    total_energy_vario_available := info.total_energy_vario_available.Update info.clock }

/-! ### Checksum and framer -/

/-- Modelled from the spec: the value of one hexadecimal digit of the checksum
suffix, upper or lower case. -/
def hexDigit (c : Char) : Option Nat :=
  let n := c.toNat
  if 48 ≤ n ∧ n ≤ 57 then some (n - 48)
  else if 65 ≤ n ∧ n ≤ 70 then some (n - 55)
  else if 97 ≤ n ∧ n ≤ 102 then some (n - 87)
  else none

/-- Modelled from the spec: `NMEAChecksum`, the exclusive-OR of all bytes
strictly between the frame-start marker and the checksum delimiter. -/
def NMEAChecksum (body : List Char) : Nat :=
  body.foldl (fun acc c => acc ^^^ c.toNat) 0

/-- Modelled from the spec: `VerifyNMEAChecksum` of `NMEA/Checksum.hpp`. The
line must be `$<body>*<HH>` with a non-empty body and a suffix of exactly two
hexadecimal digits whose value is the exclusive-OR of the body's bytes. A line
with no checksum delimiter, an empty body or a non-hex suffix is invalid. -/
def VerifyNMEAChecksum (line : List Char) : Bool :=
  match line.reverse with
  | h2 :: h1 :: '*' :: front =>
    match front.reverse with
    | '$' :: body =>
      match hexDigit h1, hexDigit h2 with
      | some a, some b => !body.isEmpty && NMEAChecksum body == 16 * a + b
      | _, _ => false
    | _ => false
  | _ => false

/-! ### Sentence field reader -/

/-- Modelled from the spec: `NMEAInputLine` of `NMEA/InputLine.hpp`, the cursor
over the comma-delimited sentence body. It holds the remaining unconsumed
text and the flag that records exhaustion. Reads do not consult the flag: a
read past the end gives the empty field again, and a failed read never blocks
the fields after it, since a field position is consumed regardless of
success. -/
structure NMEAInputLine where
  rest : List Char
  exhausted : Bool
deriving DecidableEq, Repr

/-- Modelled from the spec: the text a reader ranges over, which is the
sentence up to its checksum delimiter (the last asterisk); a line without a
delimiter is taken whole. -/
def stripChecksum (line : List Char) : List Char :=
  if '*' ∈ line then ((line.reverse.dropWhile (fun c => c != '*')).drop 1).reverse
  else line

/-- Modelled from the spec: the constructor `NMEAInputLine(line)`. -/
def NMEAInputLine.new (line : List Char) : NMEAInputLine :=
  { rest := stripChecksum line, exhausted := false }

/-- Modelled from the spec: `NMEAInputLine::ReadView`, "returns the next raw
field text (possibly empty), advances the cursor past the next delimiter;
returns an empty slice and marks exhaustion once the body is consumed". -/
def NMEAInputLine.ReadView (line : NMEAInputLine) : List Char × NMEAInputLine :=
  match line.rest with
  | [] => ([], { rest := [], exhausted := true })
  | text =>
    (text.takeWhile (fun c => c != ','),
     { rest := (text.dropWhile (fun c => c != ',')).drop 1, exhausted := line.exhausted })

/-- Modelled from the spec: the value of a run of decimal digits, most
significant first; `none` when a character is not a digit. -/
def parseDigits (acc : Nat) : List Char → Option Nat
  | [] => some acc
  | c :: cs =>
    if 48 ≤ c.toNat ∧ c.toNat ≤ 57 then parseDigits (10 * acc + (c.toNat - 48)) cs
    else none

/-- Modelled from the spec: the numeric conversion behind `ReadChecked`
(`ParseDouble`). A field is "fully numeric" when it is an optional sign, then
decimal digits with an optional fractional part, with at least one digit. Its
value is the double nearest to the decimal number written, ties to even; a
number too large for a double gives infinity, `-0` gives the negative zero. -/
def ParseDouble (field : List Char) : Option Double :=
  let (negative, digits) :=
    match field with
    | '-' :: t => (true, t)
    | '+' :: t => (false, t)
    | t => (false, t)
  let whole := digits.takeWhile (fun c => c != '.')
  let frac := (digits.dropWhile (fun c => c != '.')).drop 1
  if whole.isEmpty && frac.isEmpty then none
  else
    match parseDigits 0 whole with
    | some w =>
      match parseDigits w frac with
      | some n => some (Double.round negative n (10 ^ frac.length))
      | none => none
    | none => none

/-- Modelled from the spec: `NMEAInputLine::ReadChecked(double &)`. It takes
the next field and yields its number when the field is non-empty and fully
numeric; an empty or malformed field, or an exhausted reader, yields `none`
(the C++ function returns `false` and leaves its argument untouched). The
field position is consumed in both cases. -/
def NMEAInputLine.ReadChecked (line : NMEAInputLine) : Option Double × NMEAInputLine :=
  let (field, line) := line.ReadView
  (ParseDouble field, line)

/-! ## The driver: `src/Device/Driver/Softrf.cpp` -/

/-- The function `VARIOLK` (Softrf.cpp lines 33-101): five `ReadChecked` calls
in the order pressure, altitude, vario, temperature, battery, each followed by
its guarded update. Returns the C++ return value and the snapshot after. -/
def VARIOLK {Other : Type} (line : NMEAInputLine) (info : NMEAInfo Other) :
    Bool × NMEAInfo Other :=
  -- Raw Pressure
  let (r, line) := line.ReadChecked
  let info :=
    match r with
    | some value =>
      if Double.ne value (Double.ofNat 999999) then
        info.ProvideStaticPressure (AtmosphericPressure.HectoPascal value)
      else info
    | none => info
  -- Altitude in meters
  let (r, line) := line.ReadChecked
  let info :=
    match r with
    | some _ => info
    | none => info
  -- Vario
  let (r, line) := line.ReadChecked
  let info :=
    match r with
    | some value =>
      if Double.ne value (Double.ofNat 9999) then
        info.ProvideTotalEnergyVario (Double.div value (Double.ofNat 100))
      else info
    | none => info
  -- Temperature
  let (r, line) := line.ReadChecked
  let info :=
    match r with
    | some value =>
      if Double.ne value (Double.ofNat 99) then
        { info with
          temperature := Temperature.FromCelsius value
          temperature_available := true }
      else info
    | none => info
  -- battery
  let (r, _) := line.ReadChecked
  let info :=
    match r with
    | some value =>
      if Double.ne value (Double.ofNat 999) then
        { info with
          voltage := value
          voltage_available := info.voltage_available.Update info.clock }
      else info
    | none => info
  (true, info)

/-- The method `SoftrfDevice::ParseNMEA` (Softrf.cpp lines 103-116). -/
def SoftrfDevice.ParseNMEA {Other : Type} (String : List Char) (info : NMEAInfo Other) :
    Bool × NMEAInfo Other :=
  if !VerifyNMEAChecksum String then (false, info)
  else
    let line := NMEAInputLine.new String
    let (type, line) := line.ReadView
    if type = "$LK8EX1".toList then VARIOLK line info
    else (false, info)

/-! ## Fields of a sentence, as the wire format defines them -/

/-- The `k`-th comma-delimited field of the text still ahead of the cursor
(field 0 is the next one to be read); a field past the end is empty. -/
def NMEAInputLine.fieldAt (line : NMEAInputLine) (k : Nat) : List Char :=
  (line.rest.splitOn ',').getD k []

/-- The `k`-th comma-delimited field of a sentence `$TYPE,f0,f1,...*HH`:
field 0 is the type identifier, fields 1 to 5 of an LK8EX1 sentence are
pressure, altitude, vario, temperature and battery. -/
def NMEAField (line : List Char) (k : Nat) : List Char :=
  (NMEAInputLine.new line).fieldAt k

/-- The pressure update of `VARIOLK` as a function of what the read gave. -/
def applyPressure {Other : Type} (r : Option Double) (info : NMEAInfo Other) : NMEAInfo Other :=
  match r with
  | some value =>
    if Double.ne value (Double.ofNat 999999) then
      info.ProvideStaticPressure (AtmosphericPressure.HectoPascal value)
    else info
  | none => info

/-- The vario update of `VARIOLK` as a function of what the read gave. -/
def applyVario {Other : Type} (r : Option Double) (info : NMEAInfo Other) : NMEAInfo Other :=
  match r with
  | some value =>
    if Double.ne value (Double.ofNat 9999) then
      info.ProvideTotalEnergyVario (Double.div value (Double.ofNat 100))
    else info
  | none => info

/-- The temperature update of `VARIOLK` as a function of what the read gave. -/
def applyTemperature {Other : Type} (r : Option Double) (info : NMEAInfo Other) :
    NMEAInfo Other :=
  match r with
  | some value =>
    if Double.ne value (Double.ofNat 99) then
      { info with
        temperature := Temperature.FromCelsius value
        temperature_available := true }
    else info
  | none => info

/-- The battery update of `VARIOLK` as a function of what the read gave. -/
def applyBattery {Other : Type} (r : Option Double) (info : NMEAInfo Other) : NMEAInfo Other :=
  match r with
  | some value =>
    if Double.ne value (Double.ofNat 999) then
      { info with
        voltage := value
        voltage_available := info.voltage_available.Update info.clock }
    else info
  | none => info

/-- The snapshot a recognised sentence leaves behind, as a function of the
four fields that are used. -/
def applyFields {Other : Type} (p v t b : List Char) (info : NMEAInfo Other) :
    NMEAInfo Other :=
  applyBattery (ParseDouble b)
    (applyTemperature (ParseDouble t)
      (applyVario (ParseDouble v)
        (applyPressure (ParseDouble p) info)))

/-! ## Sample inputs -/

/-- A snapshot with clock 7 in which no measurement is available yet. -/
def sampleInfo : NMEAInfo Unit :=
  { clock := 7
    static_pressure := ⟨Double.zero false⟩
    static_pressure_available := ⟨false, 0⟩
    baro_altitude := Double.zero false
    baro_altitude_available := ⟨false, 0⟩
    total_energy_vario := Double.zero false
    total_energy_vario_available := ⟨false, 0⟩
    temperature := ⟨Double.zero false⟩
    temperature_available := false
    voltage := Double.zero false
    voltage_available := ⟨false, 0⟩
    other := () }

/-- Scenario A of the specification: pressure present, the rest sentinels. -/
def scenarioA : List Char := "$LK8EX1,101325,99999,9999,99,999*3B".toList

/-- Scenario B of the specification: pressure sentinel, the rest present. -/
def scenarioB : List Char := "$LK8EX1,999999,1500,250,15,1020*0B".toList

/-- Scenario C of the specification: Scenario A with a corrupted checksum. -/
def scenarioC : List Char := "$LK8EX1,101325,99999,9999,99,999*3C".toList

/-- Scenario D of the specification: a valid sentence of another type. -/
def scenarioD : List Char := "$GPGGA,101325,99999,250,15,1020*77".toList

/-- Every data field holds its sentinel. -/
def allSentinels : List Char := "$LK8EX1,999999,99999,9999,99,999*3F".toList

/-- Only the altitude field holds a measurement. -/
def altitudeOnly : List Char := "$LK8EX1,999999,1500,9999,99,999*02".toList

/-- Only the temperature field holds a measurement. -/
def temperatureOnly : List Char := "$LK8EX1,999999,99999,9999,15,999*3B".toList

/-- The sentence of sentinels with the pressure written `999999.00000000001`:
the nearest double is 999999. -/
def nearSentinel : List Char := "$LK8EX1,999999.00000000001,99999,9999,99,999*20".toList

/-- Vario 10 cm/s and battery 11.2 V: neither 10/100 nor 11.2 is a double. -/
def inexactFields : List Char := "$LK8EX1,999999,99999,10,15,11.2*1F".toList

/-! ## Checks of the `double` model -/

/-- The decimal `9999.0000000000001` is nearer to 9999 than to any other
double, and so is `999999.00000000001` to 999999. -/
theorem ParseDouble_near_sentinel :
    ParseDouble "9999.0000000000001".toList = some (Double.ofNat 9999) ∧
    ParseDouble "999999.00000000001".toList = some (Double.ofNat 999999) := by
  constructor <;> decide!

/-- The quotient `10 / 100` is the double nearest to one tenth, with bit
pattern `0x3FB999999999999A`. -/
theorem Double.div_ten_hundred :
    (Double.div (Double.ofNat 10) (Double.ofNat 100)).sign = false ∧
    (Double.div (Double.ofNat 10) (Double.ofNat 100)).exponent.val = 1019 ∧
    (Double.div (Double.ofNat 10) (Double.ofNat 100)).fraction.val = 2702159776422298 := by
  decide!

/-- A number of 401 digits is too large for a double and parses to
infinity; its hundredth is infinity again. -/
theorem ParseDouble_overflow :
    ParseDouble ('1' :: List.replicate 400 '0') = some (Double.infinity false) ∧
    Double.div (Double.infinity false) (Double.ofNat 100) = Double.infinity false := by
  constructor <;> decide!

/-- The two zeros are equal under `==` and differ in their sign bit; a NaN
differs from everything, itself included. -/
theorem Double.eq_zero_nan :
    Double.eq (Double.zero false) (Double.zero true) = true ∧
    ParseDouble "-0".toList = some (Double.zero true) ∧
    Double.ne Double.quietNaN Double.quietNaN = true := by
  refine ⟨?_, ?_, ?_⟩ <;> decide!

/-! ## The cursor and the fields -/

theorem splitOn_comma_cons (c : Char) (cs : List Char) :
    (c :: cs).splitOn ',' =
      if c = ',' then [] :: cs.splitOn ','
      else (cs.splitOn ',').modifyHead (List.cons c) := by
  unfold List.splitOn
  rw [List.splitOnP_cons]
  by_cases h : c = ',' <;> simp [h]

theorem getD_zero_splitOn (text : List Char) :
    (text.splitOn ',').getD 0 [] = text.takeWhile (fun c => c != ',') := by
  induction text with
  | nil => simp [List.splitOn_nil]
  | cons c cs ih =>
    rw [splitOn_comma_cons]
    by_cases h : c = ','
    · simp [h]
    · have hne : cs.splitOn ',' ≠ [] := List.splitOnP_ne_nil _ _
      cases hs : cs.splitOn ',' with
      | nil => exact absurd hs hne
      | cons f fs =>
        rw [hs] at ih
        simp only [List.getD_cons_zero] at ih
        simp [h, List.modifyHead, ih]

theorem getD_succ_splitOn (text : List Char) (k : Nat) :
    (text.splitOn ',').getD (k + 1) [] =
      (((text.dropWhile (fun c => c != ',')).drop 1).splitOn ',').getD k [] := by
  induction text with
  | nil =>
    cases k <;> simp [List.splitOn_nil]
  | cons c cs ih =>
    rw [splitOn_comma_cons]
    by_cases h : c = ','
    · simp [h]
    · have hne : cs.splitOn ',' ≠ [] := List.splitOnP_ne_nil _ _
      cases hs : cs.splitOn ',' with
      | nil => exact absurd hs hne
      | cons f fs =>
        rw [hs] at ih
        simp only [List.getD_cons_succ] at ih
        simp only [h, if_false, List.modifyHead, List.getD_cons_succ]
        rw [ih]
        simp [h]

/-- `ReadView` returns the field at the cursor. -/
theorem ReadView_fst (line : NMEAInputLine) : line.ReadView.1 = line.fieldAt 0 := by
  unfold NMEAInputLine.ReadView NMEAInputLine.fieldAt
  rw [getD_zero_splitOn]
  split
  · next h => simp [h]
  · rfl

/-- `ReadView` moves the cursor by exactly one field. -/
theorem ReadView_snd (line : NMEAInputLine) (k : Nat) :
    line.ReadView.2.fieldAt k = line.fieldAt (k + 1) := by
  unfold NMEAInputLine.ReadView NMEAInputLine.fieldAt
  rw [getD_succ_splitOn]
  split
  · next h => simp [h]
  · rfl

theorem ReadChecked_fst (line : NMEAInputLine) :
    line.ReadChecked.1 = ParseDouble (line.fieldAt 0) := by
  simp [NMEAInputLine.ReadChecked, ReadView_fst]

theorem ReadChecked_snd (line : NMEAInputLine) (k : Nat) :
    line.ReadChecked.2.fieldAt k = line.fieldAt (k + 1) := by
  simp [NMEAInputLine.ReadChecked, ReadView_snd]

/-- `VARIOLK` in terms of the five fields ahead of the cursor. -/
theorem VARIOLK_eq {Other : Type} (line : NMEAInputLine) (info : NMEAInfo Other) :
    VARIOLK line info =
      (true,
        applyBattery (ParseDouble (line.fieldAt 4))
          (applyTemperature (ParseDouble (line.fieldAt 3))
            (applyVario (ParseDouble (line.fieldAt 2))
              (applyPressure (ParseDouble (line.fieldAt 0)) info)))) := by
  have e0 := ReadChecked_fst line
  have e2 : line.ReadChecked.2.ReadChecked.2.ReadChecked.1 = ParseDouble (line.fieldAt 2) := by
    rw [ReadChecked_fst, ReadChecked_snd, ReadChecked_snd]
  have e3 : line.ReadChecked.2.ReadChecked.2.ReadChecked.2.ReadChecked.1 =
      ParseDouble (line.fieldAt 3) := by
    rw [ReadChecked_fst, ReadChecked_snd, ReadChecked_snd, ReadChecked_snd]
  have e4 : line.ReadChecked.2.ReadChecked.2.ReadChecked.2.ReadChecked.2.ReadChecked.1 =
      ParseDouble (line.fieldAt 4) := by
    rw [ReadChecked_fst, ReadChecked_snd, ReadChecked_snd, ReadChecked_snd, ReadChecked_snd]
  simp only [VARIOLK, e0, e2, e3, e4]
  cases line.ReadChecked.2.ReadChecked.1 <;> rfl

/-- `SoftrfDevice.ParseNMEA` in terms of the checksum verdict and the fields of the
sentence. -/
theorem ParseNMEA_eq {Other : Type} (line : List Char) (info : NMEAInfo Other) :
    SoftrfDevice.ParseNMEA line info =
      if VerifyNMEAChecksum line = true ∧ NMEAField line 0 = "$LK8EX1".toList then
        (true,
          applyBattery (ParseDouble (NMEAField line 5))
            (applyTemperature (ParseDouble (NMEAField line 4))
              (applyVario (ParseDouble (NMEAField line 3))
                (applyPressure (ParseDouble (NMEAField line 1)) info))))
      else (false, info) := by
  unfold SoftrfDevice.ParseNMEA NMEAField
  by_cases hck : VerifyNMEAChecksum line = true
  · simp only [hck, Bool.not_true, Bool.false_eq_true, if_false, true_and]
    rw [ReadView_fst]
    by_cases hty : (NMEAInputLine.new line).fieldAt 0 = "$LK8EX1".toList
    · rw [if_pos hty, if_pos hty, VARIOLK_eq]
      simp only [ReadView_snd]
    · rw [if_neg hty, if_neg hty]
  · simp [hck]

/-- A read that neither failed nor gave the sentinel gave a measurement. -/
theorem valid_of_not_absent (r : Option Double) (sentinel : Double)
    (h : ¬(r = none ∨ ∃ d, r = some d ∧ Double.ne d sentinel = false)) :
    ∃ x, r = some x ∧ Double.ne x sentinel = true := by
  cases r with
  | none => exact absurd (Or.inl rfl) h
  | some x =>
    cases hx : Double.ne x sentinel with
    | true => exact ⟨x, rfl, hx⟩
    | false => exact absurd (Or.inr ⟨x, rfl, hx⟩) h

/-! ## Shared facts about the guarded updates -/

theorem applyPressure_rest {Other : Type} (r : Option Double) (info : NMEAInfo Other) :
    (applyPressure r info).clock = info.clock ∧
    (applyPressure r info).baro_altitude = info.baro_altitude ∧
    (applyPressure r info).baro_altitude_available = info.baro_altitude_available ∧
    (applyPressure r info).total_energy_vario = info.total_energy_vario ∧
    (applyPressure r info).total_energy_vario_available = info.total_energy_vario_available ∧
    (applyPressure r info).temperature = info.temperature ∧
    (applyPressure r info).temperature_available = info.temperature_available ∧
    (applyPressure r info).voltage = info.voltage ∧
    (applyPressure r info).voltage_available = info.voltage_available ∧
    (applyPressure r info).other = info.other := by
  unfold applyPressure NMEAInfo.ProvideStaticPressure
  cases r with
  | none => simp
  | some value => cases h : Double.ne value (Double.ofNat 999999) <;> simp [h]

theorem applyVario_rest {Other : Type} (r : Option Double) (info : NMEAInfo Other) :
    (applyVario r info).clock = info.clock ∧
    (applyVario r info).static_pressure = info.static_pressure ∧
    (applyVario r info).static_pressure_available = info.static_pressure_available ∧
    (applyVario r info).baro_altitude = info.baro_altitude ∧
    (applyVario r info).baro_altitude_available = info.baro_altitude_available ∧
    (applyVario r info).temperature = info.temperature ∧
    (applyVario r info).temperature_available = info.temperature_available ∧
    (applyVario r info).voltage = info.voltage ∧
    (applyVario r info).voltage_available = info.voltage_available ∧
    (applyVario r info).other = info.other := by
  unfold applyVario NMEAInfo.ProvideTotalEnergyVario
  cases r with
  | none => simp
  | some value => cases h : Double.ne value (Double.ofNat 9999) <;> simp [h]

theorem applyTemperature_rest {Other : Type} (r : Option Double) (info : NMEAInfo Other) :
    (applyTemperature r info).clock = info.clock ∧
    (applyTemperature r info).static_pressure = info.static_pressure ∧
    (applyTemperature r info).static_pressure_available = info.static_pressure_available ∧
    (applyTemperature r info).baro_altitude = info.baro_altitude ∧
    (applyTemperature r info).baro_altitude_available = info.baro_altitude_available ∧
    (applyTemperature r info).total_energy_vario = info.total_energy_vario ∧
    (applyTemperature r info).total_energy_vario_available =
      info.total_energy_vario_available ∧
    (applyTemperature r info).voltage = info.voltage ∧
    (applyTemperature r info).voltage_available = info.voltage_available ∧
    (applyTemperature r info).other = info.other := by
  unfold applyTemperature
  cases r with
  | none => simp
  | some value => cases h : Double.ne value (Double.ofNat 99) <;> simp [h]

theorem applyBattery_rest {Other : Type} (r : Option Double) (info : NMEAInfo Other) :
    (applyBattery r info).clock = info.clock ∧
    (applyBattery r info).static_pressure = info.static_pressure ∧
    (applyBattery r info).static_pressure_available = info.static_pressure_available ∧
    (applyBattery r info).baro_altitude = info.baro_altitude ∧
    (applyBattery r info).baro_altitude_available = info.baro_altitude_available ∧
    (applyBattery r info).total_energy_vario = info.total_energy_vario ∧
    (applyBattery r info).total_energy_vario_available = info.total_energy_vario_available ∧
    (applyBattery r info).temperature = info.temperature ∧
    (applyBattery r info).temperature_available = info.temperature_available ∧
    (applyBattery r info).other = info.other := by
  unfold applyBattery
  cases r with
  | none => simp
  | some value => cases h : Double.ne value (Double.ofNat 999) <;> simp [h]

theorem ParseNMEA_recognised {Other : Type} (line : List Char) (info : NMEAInfo Other)
    (hck : VerifyNMEAChecksum line = true) (hty : NMEAField line 0 = "$LK8EX1".toList) :
    SoftrfDevice.ParseNMEA line info =
      (true, applyFields (NMEAField line 1) (NMEAField line 3) (NMEAField line 4)
        (NMEAField line 5) info) := by
  rw [ParseNMEA_eq, if_pos ⟨hck, hty⟩]
  rfl

theorem ParseNMEA_rejected {Other : Type} (line : List Char) (info : NMEAInfo Other)
    (h : ¬(VerifyNMEAChecksum line = true ∧ NMEAField line 0 = "$LK8EX1".toList)) :
    SoftrfDevice.ParseNMEA line info = (false, info) := by
  rw [ParseNMEA_eq, if_neg h]

/-- The static-pressure slot after a recognised sentence depends on the
pressure field only. -/
theorem applyFields_pressure {Other : Type} (p v t b : List Char) (info : NMEAInfo Other) :
    (applyFields p v t b info).static_pressure =
        (applyPressure (ParseDouble p) info).static_pressure ∧
    (applyFields p v t b info).static_pressure_available =
        (applyPressure (ParseDouble p) info).static_pressure_available := by
  unfold applyFields
  have hb := applyBattery_rest (ParseDouble b)
    (applyTemperature (ParseDouble t) (applyVario (ParseDouble v)
      (applyPressure (ParseDouble p) info)))
  have ht := applyTemperature_rest (ParseDouble t)
    (applyVario (ParseDouble v) (applyPressure (ParseDouble p) info))
  have hv := applyVario_rest (ParseDouble v) (applyPressure (ParseDouble p) info)
  exact ⟨by rw [hb.2.1, ht.2.1, hv.2.1], by rw [hb.2.2.1, ht.2.2.1, hv.2.2.1]⟩

/-- The total-energy vario slot after a recognised sentence depends on the
vario field only. -/
theorem applyFields_vario {Other : Type} (p v t b : List Char) (info : NMEAInfo Other) :
    (applyFields p v t b info).total_energy_vario =
        (applyVario (ParseDouble v) info).total_energy_vario ∧
    (applyFields p v t b info).total_energy_vario_available =
        (applyVario (ParseDouble v) info).total_energy_vario_available := by
  unfold applyFields
  have hb := applyBattery_rest (ParseDouble b)
    (applyTemperature (ParseDouble t) (applyVario (ParseDouble v)
      (applyPressure (ParseDouble p) info)))
  have ht := applyTemperature_rest (ParseDouble t)
    (applyVario (ParseDouble v) (applyPressure (ParseDouble p) info))
  have hp := applyPressure_rest (ParseDouble p) info
  refine ⟨?_, ?_⟩
  · rw [hb.2.2.2.2.2.1, ht.2.2.2.2.2.1]
    unfold applyVario NMEAInfo.ProvideTotalEnergyVario
    cases ParseDouble v with
    | none => simp [hp.2.2.2.1]
    | some value => cases h : Double.ne value (Double.ofNat 9999) <;> simp [h, hp.2.2.2.1]
  · rw [hb.2.2.2.2.2.2.1, ht.2.2.2.2.2.2.1]
    unfold applyVario NMEAInfo.ProvideTotalEnergyVario
    cases ParseDouble v with
    | none => simp [hp.2.2.2.2.1]
    | some value => cases h : Double.ne value (Double.ofNat 9999) <;> simp [h, hp.2.2.2.2.1, hp.1, Validity.Update]

/-- The temperature slot after a recognised sentence depends on the
temperature field only. -/
theorem applyFields_temperature {Other : Type} (p v t b : List Char)
    (info : NMEAInfo Other) :
    (applyFields p v t b info).temperature =
        (applyTemperature (ParseDouble t) info).temperature ∧
    (applyFields p v t b info).temperature_available =
        (applyTemperature (ParseDouble t) info).temperature_available := by
  unfold applyFields
  have hb := applyBattery_rest (ParseDouble b)
    (applyTemperature (ParseDouble t) (applyVario (ParseDouble v)
      (applyPressure (ParseDouble p) info)))
  have hv := applyVario_rest (ParseDouble v) (applyPressure (ParseDouble p) info)
  have hp := applyPressure_rest (ParseDouble p) info
  refine ⟨?_, ?_⟩
  · rw [hb.2.2.2.2.2.2.2.1]
    unfold applyTemperature
    cases ParseDouble t with
    | none => simp [hv.2.2.2.2.2.1, hp.2.2.2.2.2.1]
    | some value => cases h : Double.ne value (Double.ofNat 99) <;> simp [h, hv.2.2.2.2.2.1, hp.2.2.2.2.2.1]
  · rw [hb.2.2.2.2.2.2.2.2.1]
    unfold applyTemperature
    cases ParseDouble t with
    | none => simp [hv.2.2.2.2.2.2.1, hp.2.2.2.2.2.2.1]
    | some value =>
      cases h : Double.ne value (Double.ofNat 99) <;> simp [h, hv.2.2.2.2.2.2.1, hp.2.2.2.2.2.2.1]

/-- The voltage slot after a recognised sentence depends on the battery field
only. -/
theorem applyFields_voltage {Other : Type} (p v t b : List Char) (info : NMEAInfo Other) :
    (applyFields p v t b info).voltage =
        (applyBattery (ParseDouble b) info).voltage ∧
    (applyFields p v t b info).voltage_available =
        (applyBattery (ParseDouble b) info).voltage_available := by
  unfold applyFields
  have ht := applyTemperature_rest (ParseDouble t)
    (applyVario (ParseDouble v) (applyPressure (ParseDouble p) info))
  have hv := applyVario_rest (ParseDouble v) (applyPressure (ParseDouble p) info)
  have hp := applyPressure_rest (ParseDouble p) info
  refine ⟨?_, ?_⟩
  · unfold applyBattery
    cases ParseDouble b with
    | none => simp [ht.2.2.2.2.2.2.2.1, hv.2.2.2.2.2.2.2.1, hp.2.2.2.2.2.2.2.1]
    | some value =>
      cases h : Double.ne value (Double.ofNat 999) <;>
        simp [h, ht.2.2.2.2.2.2.2.1, hv.2.2.2.2.2.2.2.1, hp.2.2.2.2.2.2.2.1]
  · unfold applyBattery
    cases ParseDouble b with
    | none => simp [ht.2.2.2.2.2.2.2.2.1, hv.2.2.2.2.2.2.2.2.1, hp.2.2.2.2.2.2.2.2.1]
    | some value =>
      cases h : Double.ne value (Double.ofNat 999) <;>
        simp [h, ht.2.2.2.2.2.2.2.2.1, hv.2.2.2.2.2.2.2.2.1, hp.2.2.2.2.2.2.2.2.1,
          ht.1, hv.1, hp.1, Validity.Update]

/-! ## Repeating an update -/

theorem applyPressure_again {Other : Type} (r : Option Double) (a c : NMEAInfo Other) :
    (c.static_pressure = (applyPressure r a).static_pressure →
      (applyPressure r c).static_pressure = (applyPressure r a).static_pressure) ∧
    (c.static_pressure_available.available =
        (applyPressure r a).static_pressure_available.available →
      (applyPressure r c).static_pressure_available.available =
        (applyPressure r a).static_pressure_available.available) ∧
    (c.static_pressure_available = (applyPressure r a).static_pressure_available →
      c.clock = a.clock →
      (applyPressure r c).static_pressure_available =
        (applyPressure r a).static_pressure_available) := by
  unfold applyPressure NMEAInfo.ProvideStaticPressure Validity.Update
  cases r with
  | none => exact ⟨id, id, fun h _ => h⟩
  | some value =>
    cases h : Double.ne value (Double.ofNat 999999)
    · simp only [h, Bool.false_eq_true, if_false]
      exact ⟨id, id, fun h _ => h⟩
    · exact ⟨fun _ => by simp [h], fun _ => by simp [h], fun _ hk => by simp [h, hk]⟩

theorem applyVario_again {Other : Type} (r : Option Double) (a c : NMEAInfo Other) :
    (c.total_energy_vario = (applyVario r a).total_energy_vario →
      (applyVario r c).total_energy_vario = (applyVario r a).total_energy_vario) ∧
    (c.total_energy_vario_available.available =
        (applyVario r a).total_energy_vario_available.available →
      (applyVario r c).total_energy_vario_available.available =
        (applyVario r a).total_energy_vario_available.available) ∧
    (c.total_energy_vario_available = (applyVario r a).total_energy_vario_available →
      c.clock = a.clock →
      (applyVario r c).total_energy_vario_available =
        (applyVario r a).total_energy_vario_available) := by
  unfold applyVario NMEAInfo.ProvideTotalEnergyVario Validity.Update
  cases r with
  | none => exact ⟨id, id, fun h _ => h⟩
  | some value =>
    cases h : Double.ne value (Double.ofNat 9999)
    · simp only [h, Bool.false_eq_true, if_false]
      exact ⟨id, id, fun h _ => h⟩
    · exact ⟨fun _ => by simp [h], fun _ => by simp [h], fun _ hk => by simp [h, hk]⟩

theorem applyTemperature_again {Other : Type} (r : Option Double) (a c : NMEAInfo Other) :
    (c.temperature = (applyTemperature r a).temperature →
      (applyTemperature r c).temperature = (applyTemperature r a).temperature) ∧
    (c.temperature_available = (applyTemperature r a).temperature_available →
      (applyTemperature r c).temperature_available =
        (applyTemperature r a).temperature_available) := by
  unfold applyTemperature
  cases r with
  | none => exact ⟨id, id⟩
  | some value =>
    cases h : Double.ne value (Double.ofNat 99)
    · simp only [h, Bool.false_eq_true, if_false]
      exact ⟨id, id⟩
    · refine ⟨fun _ => ?_, fun _ => ?_⟩ <;> simp [h]

theorem applyBattery_again {Other : Type} (r : Option Double) (a c : NMEAInfo Other) :
    (c.voltage = (applyBattery r a).voltage →
      (applyBattery r c).voltage = (applyBattery r a).voltage) ∧
    (c.voltage_available.available = (applyBattery r a).voltage_available.available →
      (applyBattery r c).voltage_available.available =
        (applyBattery r a).voltage_available.available) ∧
    (c.voltage_available = (applyBattery r a).voltage_available →
      c.clock = a.clock →
      (applyBattery r c).voltage_available = (applyBattery r a).voltage_available) := by
  unfold applyBattery Validity.Update
  cases r with
  | none => exact ⟨id, id, fun h _ => h⟩
  | some value =>
    cases h : Double.ne value (Double.ofNat 999)
    · simp only [h, Bool.false_eq_true, if_false]
      exact ⟨id, id, fun h _ => h⟩
    · exact ⟨fun _ => by simp [h], fun _ => by simp [h], fun _ hk => by simp [h, hk]⟩

/-- What a recognised sentence never touches. -/
theorem applyFields_rest {Other : Type} (p v t b : List Char) (info : NMEAInfo Other) :
    (applyFields p v t b info).clock = info.clock ∧
    (applyFields p v t b info).baro_altitude = info.baro_altitude ∧
    (applyFields p v t b info).baro_altitude_available = info.baro_altitude_available ∧
    (applyFields p v t b info).other = info.other := by
  unfold applyFields
  have hb := applyBattery_rest (ParseDouble b)
    (applyTemperature (ParseDouble t) (applyVario (ParseDouble v)
      (applyPressure (ParseDouble p) info)))
  have ht := applyTemperature_rest (ParseDouble t)
    (applyVario (ParseDouble v) (applyPressure (ParseDouble p) info))
  have hv := applyVario_rest (ParseDouble v) (applyPressure (ParseDouble p) info)
  have hp := applyPressure_rest (ParseDouble p) info
  refine ⟨?_, ?_, ?_, ?_⟩
  · rw [hb.1, ht.1, hv.1, hp.1]
  · rw [hb.2.2.2.1, ht.2.2.2.1, hv.2.2.2.1, hp.2.1]
  · rw [hb.2.2.2.2.1, ht.2.2.2.2.1, hv.2.2.2.2.1, hp.2.2.1]
  · rw [hb.2.2.2.2.2.2.2.2.2, ht.2.2.2.2.2.2.2.2.2, hv.2.2.2.2.2.2.2.2.2,
      hp.2.2.2.2.2.2.2.2.2]

/-- Two snapshots with equal members are equal. -/
theorem NMEAInfo.eq_of_members {Other : Type} (a c : NMEAInfo Other)
    (h1 : a.clock = c.clock) (h2 : a.static_pressure = c.static_pressure)
    (h3 : a.static_pressure_available = c.static_pressure_available)
    (h4 : a.baro_altitude = c.baro_altitude)
    (h5 : a.baro_altitude_available = c.baro_altitude_available)
    (h6 : a.total_energy_vario = c.total_energy_vario)
    (h7 : a.total_energy_vario_available = c.total_energy_vario_available)
    (h8 : a.temperature = c.temperature)
    (h9 : a.temperature_available = c.temperature_available)
    (h10 : a.voltage = c.voltage) (h11 : a.voltage_available = c.voltage_available)
    (h12 : a.other = c.other) : a = c := by
  cases a; cases c
  simp only [NMEAInfo.mk.injEq]
  exact ⟨h1, h2, h3, h4, h5, h6, h7, h8, h9, h10, h11, h12⟩

/-- Decoding the same fields a second time, with the clock unchanged, changes
nothing. -/
theorem applyFields_twice {Other : Type} (p v t b : List Char) (info : NMEAInfo Other) :
    applyFields p v t b (applyFields p v t b info) = applyFields p v t b info := by
  have r1 := applyFields_rest p v t b info
  have r2 := applyFields_rest p v t b (applyFields p v t b info)
  have p1 := applyFields_pressure p v t b info
  have p2 := applyFields_pressure p v t b (applyFields p v t b info)
  have v1 := applyFields_vario p v t b info
  have v2 := applyFields_vario p v t b (applyFields p v t b info)
  have t1 := applyFields_temperature p v t b info
  have t2 := applyFields_temperature p v t b (applyFields p v t b info)
  have b1 := applyFields_voltage p v t b info
  have b2 := applyFields_voltage p v t b (applyFields p v t b info)
  have ap := applyPressure_again (ParseDouble p) info (applyFields p v t b info)
  have av := applyVario_again (ParseDouble v) info (applyFields p v t b info)
  have at' := applyTemperature_again (ParseDouble t) info (applyFields p v t b info)
  have ab := applyBattery_again (ParseDouble b) info (applyFields p v t b info)
  apply NMEAInfo.eq_of_members
  · exact r2.1
  · rw [p2.1, p1.1]; exact ap.1 p1.1
  · rw [p2.2, p1.2]; exact ap.2.2 p1.2 r1.1
  · exact r2.2.1
  · exact r2.2.2.1
  · rw [v2.1, v1.1]; exact av.1 v1.1
  · rw [v2.2, v1.2]; exact av.2.2 v1.2 r1.1
  · rw [t2.1, t1.1]; exact at'.1 t1.1
  · rw [t2.2, t1.2]; exact at'.2 t1.2
  · rw [b2.1, b1.1]; exact ab.1 b1.1
  · rw [b2.2, b1.2]; exact ab.2.2 b1.2 r1.1
  · exact r2.2.2.2

/-! ## Claims -/

/-- C1. The pressure field of an LK8EX1 sentence is documented as hPa*100, so
Scenario A (field `101325`) should leave 1013.25 hPa in the static-pressure
slot. `VARIOLK` passes the raw number to `AtmosphericPressure::HectoPascal`
without dividing: for every prior snapshot the slot holds the double 101325
after the call, marked available at the snapshot clock, and that is neither
the number 101325/100 nor the double `101325 / 100`. -/
theorem C1_pressure_not_scaled {Other : Type} (info : NMEAInfo Other) :
    VerifyNMEAChecksum scenarioA = true ∧
    NMEAField scenarioA 0 = "$LK8EX1".toList ∧
    ParseDouble (NMEAField scenarioA 1) = some (Double.ofNat 101325) ∧
    (SoftrfDevice.ParseNMEA scenarioA info).1 = true ∧
    (SoftrfDevice.ParseNMEA scenarioA info).2.static_pressure.hPa = Double.ofNat 101325 ∧
    (SoftrfDevice.ParseNMEA scenarioA info).2.static_pressure.hPa.toRat = some 101325 ∧
    (SoftrfDevice.ParseNMEA scenarioA info).2.static_pressure_available = ⟨true, info.clock⟩ ∧
    (SoftrfDevice.ParseNMEA scenarioA info).2.static_pressure.hPa.toRat ≠ some (101325 / 100) ∧
    Double.ne (SoftrfDevice.ParseNMEA scenarioA info).2.static_pressure.hPa
      (Double.div (Double.ofNat 101325) (Double.ofNat 100)) = true := by
  have hck : VerifyNMEAChecksum scenarioA = true := by decide
  have hty : NMEAField scenarioA 0 = "$LK8EX1".toList := by decide
  have hp : ParseDouble (NMEAField scenarioA 1) = some (Double.ofNat 101325) := by decide!
  have hne : Double.ne (Double.ofNat 101325) (Double.ofNat 999999) = true := by decide!
  have b1 : (Double.ofNat 101325).sign = false := by decide!
  have b2 : (Double.ofNat 101325).exponent.val = 1039 := by decide!
  have b3 : (Double.ofNat 101325).fraction.val = 2459401352904704 := by decide!
  have hr : (Double.ofNat 101325).toRat = some 101325 := by
    simp [Double.toRat, Double.significand, Double.scale, b1, b2, b3]
    norm_num
  have hs := applyFields_pressure (NMEAField scenarioA 1) (NMEAField scenarioA 3)
    (NMEAField scenarioA 4) (NMEAField scenarioA 5) info
  have hv : (SoftrfDevice.ParseNMEA scenarioA info).2.static_pressure.hPa =
      Double.ofNat 101325 := by
    rw [ParseNMEA_recognised scenarioA info hck hty]
    dsimp only
    rw [hs.1, hp]
    simp [applyPressure, hne, NMEAInfo.ProvideStaticPressure, AtmosphericPressure.HectoPascal]
  refine ⟨hck, hty, hp, ?_, hv, ?_, ?_, ?_, ?_⟩
  · rw [ParseNMEA_recognised scenarioA info hck hty]
  · rw [hv, hr]
  · rw [ParseNMEA_recognised scenarioA info hck hty]
    dsimp only
    rw [hs.2, hp]
    simp [applyPressure, hne, NMEAInfo.ProvideStaticPressure, Validity.Update]
  · rw [hv, hr]
    intro h
    rw [Option.some.injEq] at h
    norm_num at h
  · rw [hv]
    decide!

/-- C2. For a checksum-valid `$LK8EX1` sentence whose vario, temperature and
battery fields parse to doubles `v`, `t`, `b` that differ from the sentinels
9999, 99 and 999, the snapshot after `ParseNMEA` has total-energy vario
`v / 100` (the division of doubles, stamped at the snapshot clock),
temperature `t` degrees Celsius marked available, and voltage `b` exactly as
read, marked available at the snapshot clock. -/
theorem C2_vario_temperature_battery {Other : Type} (line : List Char)
    (info : NMEAInfo Other) (v t b : Double)
    (hck : VerifyNMEAChecksum line = true)
    (hty : NMEAField line 0 = "$LK8EX1".toList)
    (hv : ParseDouble (NMEAField line 3) = some v)
    (hv9 : Double.ne v (Double.ofNat 9999) = true)
    (ht : ParseDouble (NMEAField line 4) = some t)
    (ht9 : Double.ne t (Double.ofNat 99) = true)
    (hb : ParseDouble (NMEAField line 5) = some b)
    (hb9 : Double.ne b (Double.ofNat 999) = true) :
    (SoftrfDevice.ParseNMEA line info).1 = true ∧
    (SoftrfDevice.ParseNMEA line info).2.total_energy_vario =
      Double.div v (Double.ofNat 100) ∧
    (SoftrfDevice.ParseNMEA line info).2.total_energy_vario_available = ⟨true, info.clock⟩ ∧
    (SoftrfDevice.ParseNMEA line info).2.temperature = Temperature.FromCelsius t ∧
    (SoftrfDevice.ParseNMEA line info).2.temperature.celsius = t ∧
    (SoftrfDevice.ParseNMEA line info).2.temperature_available = true ∧
    (SoftrfDevice.ParseNMEA line info).2.voltage = b ∧
    (SoftrfDevice.ParseNMEA line info).2.voltage_available = ⟨true, info.clock⟩ := by
  have h1 := applyFields_vario (NMEAField line 1) (NMEAField line 3)
    (NMEAField line 4) (NMEAField line 5) info
  have h2 := applyFields_temperature (NMEAField line 1) (NMEAField line 3)
    (NMEAField line 4) (NMEAField line 5) info
  have h3 := applyFields_voltage (NMEAField line 1) (NMEAField line 3)
    (NMEAField line 4) (NMEAField line 5) info
  rw [ParseNMEA_recognised line info hck hty]
  refine ⟨rfl, ?_, ?_, ?_, ?_, ?_, ?_, ?_⟩
  · rw [h1.1, hv]; simp [applyVario, hv9, NMEAInfo.ProvideTotalEnergyVario]
  · rw [h1.2, hv]; simp [applyVario, hv9, NMEAInfo.ProvideTotalEnergyVario, Validity.Update]
  · rw [h2.1, ht]; simp [applyTemperature, ht9]
  · rw [h2.1, ht]; simp [applyTemperature, ht9, Temperature.FromCelsius]
  · rw [h2.2, ht]; simp [applyTemperature, ht9]
  · rw [h3.1, hb]; simp [applyBattery, hb9]
  · rw [h3.2, hb]; simp [applyBattery, hb9, Validity.Update]

/-- Scenario B (fields 999999,1500,250,15,1020): vario 2.5, temperature 15,
battery 1020, stamped at the clock 7 of the sample snapshot. With vario 10 and
battery 11.2 the slots hold the doubles nearest to 0.1 and to 11.2. -/
theorem C2_scenarioB_witness :
    (SoftrfDevice.ParseNMEA scenarioB sampleInfo).1 = true ∧
    (SoftrfDevice.ParseNMEA scenarioB sampleInfo).2.total_energy_vario.toRat = some (5 / 2) ∧
    (SoftrfDevice.ParseNMEA scenarioB sampleInfo).2.total_energy_vario_available = ⟨true, 7⟩ ∧
    (SoftrfDevice.ParseNMEA scenarioB sampleInfo).2.temperature.celsius.toRat = some 15 ∧
    (SoftrfDevice.ParseNMEA scenarioB sampleInfo).2.temperature_available = true ∧
    (SoftrfDevice.ParseNMEA scenarioB sampleInfo).2.voltage.toRat = some 1020 ∧
    (SoftrfDevice.ParseNMEA scenarioB sampleInfo).2.voltage_available = ⟨true, 7⟩ ∧
    (SoftrfDevice.ParseNMEA inexactFields sampleInfo).2.total_energy_vario.exponent.val =
      1019 ∧
    (SoftrfDevice.ParseNMEA inexactFields sampleInfo).2.total_energy_vario.fraction.val =
      2702159776422298 ∧
    (SoftrfDevice.ParseNMEA inexactFields sampleInfo).2.voltage.exponent.val = 1026 ∧
    (SoftrfDevice.ParseNMEA inexactFields sampleInfo).2.voltage.fraction.val =
      1801439850948198 := by
  have g := C2_vario_temperature_battery inexactFields sampleInfo
    (Double.ofNat 10) (Double.ofNat 15) (Double.round false 112 10)
    (by decide) (by decide) (by decide!) (by decide!) (by decide!) (by decide!)
    (by decide!) (by decide!)
  have h := C2_vario_temperature_battery scenarioB sampleInfo
    (Double.ofNat 250) (Double.ofNat 15) (Double.ofNat 1020)
    (by decide) (by decide) (by decide!) (by decide!) (by decide!) (by decide!)
    (by decide!) (by decide!)
  have v1 : (Double.div (Double.ofNat 250) (Double.ofNat 100)).sign = false := by decide!
  have v2 : (Double.div (Double.ofNat 250) (Double.ofNat 100)).exponent.val = 1024 := by
    decide!
  have v3 : (Double.div (Double.ofNat 250) (Double.ofNat 100)).fraction.val =
      1125899906842624 := by decide!
  have t1 : (Double.ofNat 15).sign = false := by decide!
  have t2 : (Double.ofNat 15).exponent.val = 1026 := by decide!
  have t3 : (Double.ofNat 15).fraction.val = 3940649673949184 := by decide!
  have b1 : (Double.ofNat 1020).sign = false := by decide!
  have b2 : (Double.ofNat 1020).exponent.val = 1032 := by decide!
  have b3 : (Double.ofNat 1020).fraction.val = 4468415255281664 := by decide!
  refine ⟨h.1, ?_, h.2.2.1, ?_, h.2.2.2.2.2.1, ?_, h.2.2.2.2.2.2.2, ?_, ?_, ?_, ?_⟩
  · rw [h.2.1]
    simp [Double.toRat, Double.significand, Double.scale, v1, v2, v3]
    norm_num
  · rw [h.2.2.2.2.1]
    simp [Double.toRat, Double.significand, Double.scale, t1, t2, t3]
    norm_num
  · rw [h.2.2.2.2.2.2.1]
    simp [Double.toRat, Double.significand, Double.scale, b1, b2, b3]
    norm_num
  · rw [g.2.1]; decide!
  · rw [g.2.1]; decide!
  · rw [g.2.2.2.2.2.2.1]; decide!
  · rw [g.2.2.2.2.2.2.1]; decide!

/-- C3. For a checksum-valid `$LK8EX1` sentence and any prior snapshot, a
field that holds its sentinel (it parses to a double equal to 999999 for
pressure, 9999 for vario, 99 for temperature, 999 for battery) leaves its slot
as it was: same value, same availability flag, same timestamp. -/
theorem C3_sentinel_keeps_slot {Other : Type} (line : List Char) (info : NMEAInfo Other)
    (hck : VerifyNMEAChecksum line = true)
    (hty : NMEAField line 0 = "$LK8EX1".toList) :
    (∀ d, ParseDouble (NMEAField line 1) = some d →
      Double.ne d (Double.ofNat 999999) = false →
      (SoftrfDevice.ParseNMEA line info).2.static_pressure = info.static_pressure ∧
      (SoftrfDevice.ParseNMEA line info).2.static_pressure_available =
        info.static_pressure_available) ∧
    (∀ d, ParseDouble (NMEAField line 3) = some d →
      Double.ne d (Double.ofNat 9999) = false →
      (SoftrfDevice.ParseNMEA line info).2.total_energy_vario = info.total_energy_vario ∧
      (SoftrfDevice.ParseNMEA line info).2.total_energy_vario_available =
        info.total_energy_vario_available) ∧
    (∀ d, ParseDouble (NMEAField line 4) = some d →
      Double.ne d (Double.ofNat 99) = false →
      (SoftrfDevice.ParseNMEA line info).2.temperature = info.temperature ∧
      (SoftrfDevice.ParseNMEA line info).2.temperature_available =
        info.temperature_available) ∧
    (∀ d, ParseDouble (NMEAField line 5) = some d →
      Double.ne d (Double.ofNat 999) = false →
      (SoftrfDevice.ParseNMEA line info).2.voltage = info.voltage ∧
      (SoftrfDevice.ParseNMEA line info).2.voltage_available = info.voltage_available) := by
  have h0 := applyFields_pressure (NMEAField line 1) (NMEAField line 3)
    (NMEAField line 4) (NMEAField line 5) info
  have h1 := applyFields_vario (NMEAField line 1) (NMEAField line 3)
    (NMEAField line 4) (NMEAField line 5) info
  have h2 := applyFields_temperature (NMEAField line 1) (NMEAField line 3)
    (NMEAField line 4) (NMEAField line 5) info
  have h3 := applyFields_voltage (NMEAField line 1) (NMEAField line 3)
    (NMEAField line 4) (NMEAField line 5) info
  rw [ParseNMEA_recognised line info hck hty]
  refine ⟨fun d h hs => ?_, fun d h hs => ?_, fun d h hs => ?_, fun d h hs => ?_⟩
  · rw [h0.1, h0.2, h]; simp [applyPressure, hs]
  · rw [h1.1, h1.2, h]; simp [applyVario, hs]
  · rw [h2.1, h2.2, h]; simp [applyTemperature, hs]
  · rw [h3.1, h3.2, h]; simp [applyBattery, hs]

/-- A sentence of sentinels only, decoded into a snapshot that already holds
measurements: the four slots keep value, flag and timestamp. The same holds
when the pressure field is written `999999.00000000001`, which is the double
999999. -/
theorem C3_all_sentinels_witness :
    ((SoftrfDevice.ParseNMEA allSentinels (SoftrfDevice.ParseNMEA scenarioB sampleInfo).2).2.static_pressure =
      (SoftrfDevice.ParseNMEA scenarioB sampleInfo).2.static_pressure ∧
    (SoftrfDevice.ParseNMEA allSentinels (SoftrfDevice.ParseNMEA scenarioB sampleInfo).2).2.static_pressure_available =
      (SoftrfDevice.ParseNMEA scenarioB sampleInfo).2.static_pressure_available ∧
    (SoftrfDevice.ParseNMEA allSentinels (SoftrfDevice.ParseNMEA scenarioB sampleInfo).2).2.total_energy_vario =
      (SoftrfDevice.ParseNMEA scenarioB sampleInfo).2.total_energy_vario ∧
    (SoftrfDevice.ParseNMEA allSentinels (SoftrfDevice.ParseNMEA scenarioB sampleInfo).2).2.total_energy_vario_available =
      (SoftrfDevice.ParseNMEA scenarioB sampleInfo).2.total_energy_vario_available ∧
    (SoftrfDevice.ParseNMEA allSentinels (SoftrfDevice.ParseNMEA scenarioB sampleInfo).2).2.temperature =
      (SoftrfDevice.ParseNMEA scenarioB sampleInfo).2.temperature ∧
    (SoftrfDevice.ParseNMEA allSentinels (SoftrfDevice.ParseNMEA scenarioB sampleInfo).2).2.temperature_available =
      (SoftrfDevice.ParseNMEA scenarioB sampleInfo).2.temperature_available ∧
    (SoftrfDevice.ParseNMEA allSentinels (SoftrfDevice.ParseNMEA scenarioB sampleInfo).2).2.voltage =
      (SoftrfDevice.ParseNMEA scenarioB sampleInfo).2.voltage ∧
    (SoftrfDevice.ParseNMEA allSentinels (SoftrfDevice.ParseNMEA scenarioB sampleInfo).2).2.voltage_available =
      (SoftrfDevice.ParseNMEA scenarioB sampleInfo).2.voltage_available) ∧
    (SoftrfDevice.ParseNMEA nearSentinel (SoftrfDevice.ParseNMEA scenarioA sampleInfo).2).2.static_pressure =
      (SoftrfDevice.ParseNMEA scenarioA sampleInfo).2.static_pressure := by
  have h := C3_sentinel_keeps_slot allSentinels (SoftrfDevice.ParseNMEA scenarioB sampleInfo).2
    (by decide) (by decide)
  have hp := h.1 (Double.ofNat 999999) (by decide!) (by decide!)
  have hv := h.2.1 (Double.ofNat 9999) (by decide!) (by decide!)
  have ht := h.2.2.1 (Double.ofNat 99) (by decide!) (by decide!)
  have hb := h.2.2.2 (Double.ofNat 999) (by decide!) (by decide!)
  have g := C3_sentinel_keeps_slot nearSentinel (SoftrfDevice.ParseNMEA scenarioA sampleInfo).2
    (by decide) (by decide)
  exact ⟨⟨hp.1, hp.2, hv.1, hv.2, ht.1, ht.2, hb.1, hb.2⟩,
    (g.1 (Double.ofNat 999999) (by decide!) (by decide!)).1⟩

/-- C4. `SoftrfDevice.ParseNMEA` returns true exactly when the line passes checksum
verification and its first comma-delimited field is the string `$LK8EX1`,
compared case-sensitively; the data fields play no part. A lower-case
`$lk8ex1` sentence with a valid checksum is rejected; recognised sentences
with empty, missing, malformed or sentinel fields are accepted. -/
theorem C4_decoded_iff {Other : Type} (line : List Char) (info : NMEAInfo Other) :
    ((SoftrfDevice.ParseNMEA line info).1 = true ↔
      (VerifyNMEAChecksum line = true ∧ NMEAField line 0 = "$LK8EX1".toList)) ∧
    (VerifyNMEAChecksum "$lk8ex1,101325,99999,9999,99,999*3B".toList = true ∧
      (SoftrfDevice.ParseNMEA "$lk8ex1,101325,99999,9999,99,999*3B".toList info).1 = false) ∧
    (SoftrfDevice.ParseNMEA "$LK8EX1,,,,,*3F".toList info).1 = true ∧
    (SoftrfDevice.ParseNMEA "$LK8EX1*13".toList info).1 = true ∧
    (SoftrfDevice.ParseNMEA "$LK8EX1,abc,1x,--,9.9.9,*2F".toList info).1 = true ∧
    (SoftrfDevice.ParseNMEA allSentinels info).1 = true := by
  refine ⟨?_, ⟨by decide, ?_⟩, ?_, ?_, ?_, ?_⟩
  · rw [ParseNMEA_eq]
    by_cases h : VerifyNMEAChecksum line = true ∧ NMEAField line 0 = "$LK8EX1".toList
    · rw [if_pos h]; exact ⟨fun _ => h, fun _ => rfl⟩
    · rw [if_neg h]; exact ⟨fun hf => Bool.noConfusion hf, fun hc => absurd hc h⟩
  · rw [ParseNMEA_rejected _ info (by decide)]
  · rw [ParseNMEA_recognised _ info (by decide) (by decide)]
  · rw [ParseNMEA_recognised _ info (by decide) (by decide)]
  · rw [ParseNMEA_recognised _ info (by decide) (by decide)]
  · rw [ParseNMEA_recognised _ info (by decide) (by decide)]

/-- C5. Whenever `SoftrfDevice.ParseNMEA` returns false, the snapshot after the call is the
snapshot before the call. -/
theorem C5_rejected_keeps_snapshot {Other : Type} (line : List Char)
    (info : NMEAInfo Other) (h : (SoftrfDevice.ParseNMEA line info).1 = false) :
    (SoftrfDevice.ParseNMEA line info).2 = info := by
  rw [ParseNMEA_eq] at h ⊢
  by_cases hc : VerifyNMEAChecksum line = true ∧ NMEAField line 0 = "$LK8EX1".toList
  · rw [if_pos hc] at h; cases h
  · rw [if_neg hc]

/-- Scenario C (corrupted checksum) and Scenario D (another sentence type)
leave a snapshot that holds measurements untouched. -/
theorem C5_scenarioC_D_witness :
    VerifyNMEAChecksum scenarioC = false ∧
    (SoftrfDevice.ParseNMEA scenarioC (SoftrfDevice.ParseNMEA scenarioB sampleInfo).2).2 =
      (SoftrfDevice.ParseNMEA scenarioB sampleInfo).2 ∧
    VerifyNMEAChecksum scenarioD = true ∧
    (SoftrfDevice.ParseNMEA scenarioD (SoftrfDevice.ParseNMEA scenarioB sampleInfo).2).2 =
      (SoftrfDevice.ParseNMEA scenarioB sampleInfo).2 :=
  ⟨by decide,
   C5_rejected_keeps_snapshot scenarioC _
     (by rw [ParseNMEA_rejected _ _ (by decide)]),
   by decide,
   C5_rejected_keeps_snapshot scenarioD _
     (by rw [ParseNMEA_rejected _ _ (by decide)])⟩

/-- C6. The altitude field (field 2 of the sentence) never influences the
outcome: two checksum-valid sentences whose fields agree everywhere except
possibly at the altitude position give the same return value and the same
snapshot, from every prior snapshot, whatever the pressure field holds. -/
theorem C6_altitude_ignored {Other : Type} (l1 l2 : List Char) (info : NMEAInfo Other)
    (h1 : VerifyNMEAChecksum l1 = true) (h2 : VerifyNMEAChecksum l2 = true)
    (hsame : ∀ k, k ≠ 2 → NMEAField l1 k = NMEAField l2 k) :
    SoftrfDevice.ParseNMEA l1 info = SoftrfDevice.ParseNMEA l2 info := by
  rw [ParseNMEA_eq l1, ParseNMEA_eq l2, h1, h2,
    hsame 0 (by decide), hsame 1 (by decide), hsame 3 (by decide), hsame 4 (by decide),
    hsame 5 (by decide)]

/-- Scenario B (pressure sentinel, altitude 1500) and the same sentence with an
empty altitude field decode alike. -/
theorem C6_scenarioB_witness :
    NMEAField scenarioB 2 = "1500".toList ∧
    NMEAField "$LK8EX1,999999,,250,15,1020*0F".toList 2 = [] ∧
    SoftrfDevice.ParseNMEA scenarioB sampleInfo =
      SoftrfDevice.ParseNMEA "$LK8EX1,999999,,250,15,1020*0F".toList sampleInfo := by
  refine ⟨by decide, by decide, ?_⟩
  apply C6_altitude_ignored scenarioB "$LK8EX1,999999,,250,15,1020*0F".toList sampleInfo
    (by decide) (by decide)
  intro k hk
  have e1 : (NMEAInputLine.new scenarioB).rest.splitOn ',' =
      ["$LK8EX1".toList, "999999".toList, "1500".toList, "250".toList, "15".toList,
        "1020".toList] := by decide
  have e2 : (NMEAInputLine.new "$LK8EX1,999999,,250,15,1020*0F".toList).rest.splitOn ',' =
      ["$LK8EX1".toList, "999999".toList, [], "250".toList, "15".toList,
        "1020".toList] := by decide
  unfold NMEAField NMEAInputLine.fieldAt
  rw [e1, e2]
  match k, hk with
  | 0, _ => rfl
  | 1, _ => rfl
  | 2, h => exact absurd rfl h
  | 3, _ => rfl
  | 4, _ => rfl
  | 5, _ => rfl
  | n + 6, _ => rfl

/-- C8. Decoding is idempotent on slot values. Decode a line, let the snapshot
clock move to any value `now`, decode the same line again: the return value,
every slot value and every availability flag are as after the first decode;
only timestamps may differ. With an unchanged clock the second decode changes
nothing at all. -/
theorem C8_idempotent {Other : Type} (line : List Char) (info : NMEAInfo Other)
    (now : Nat) :
    (SoftrfDevice.ParseNMEA line { (SoftrfDevice.ParseNMEA line info).2 with clock := now }).1 =
      (SoftrfDevice.ParseNMEA line info).1 ∧
    (SoftrfDevice.ParseNMEA line { (SoftrfDevice.ParseNMEA line info).2 with clock := now }).2.static_pressure =
      (SoftrfDevice.ParseNMEA line info).2.static_pressure ∧
    (SoftrfDevice.ParseNMEA line
        { (SoftrfDevice.ParseNMEA line info).2 with clock := now }).2.static_pressure_available.available =
      (SoftrfDevice.ParseNMEA line info).2.static_pressure_available.available ∧
    (SoftrfDevice.ParseNMEA line { (SoftrfDevice.ParseNMEA line info).2 with clock := now }).2.baro_altitude =
      (SoftrfDevice.ParseNMEA line info).2.baro_altitude ∧
    (SoftrfDevice.ParseNMEA line
        { (SoftrfDevice.ParseNMEA line info).2 with clock := now }).2.baro_altitude_available =
      (SoftrfDevice.ParseNMEA line info).2.baro_altitude_available ∧
    (SoftrfDevice.ParseNMEA line { (SoftrfDevice.ParseNMEA line info).2 with clock := now }).2.total_energy_vario =
      (SoftrfDevice.ParseNMEA line info).2.total_energy_vario ∧
    (SoftrfDevice.ParseNMEA line
        { (SoftrfDevice.ParseNMEA line info).2 with
          clock := now }).2.total_energy_vario_available.available =
      (SoftrfDevice.ParseNMEA line info).2.total_energy_vario_available.available ∧
    (SoftrfDevice.ParseNMEA line { (SoftrfDevice.ParseNMEA line info).2 with clock := now }).2.temperature =
      (SoftrfDevice.ParseNMEA line info).2.temperature ∧
    (SoftrfDevice.ParseNMEA line { (SoftrfDevice.ParseNMEA line info).2 with clock := now }).2.temperature_available =
      (SoftrfDevice.ParseNMEA line info).2.temperature_available ∧
    (SoftrfDevice.ParseNMEA line { (SoftrfDevice.ParseNMEA line info).2 with clock := now }).2.voltage =
      (SoftrfDevice.ParseNMEA line info).2.voltage ∧
    (SoftrfDevice.ParseNMEA line
        { (SoftrfDevice.ParseNMEA line info).2 with clock := now }).2.voltage_available.available =
      (SoftrfDevice.ParseNMEA line info).2.voltage_available.available ∧
    (SoftrfDevice.ParseNMEA line { (SoftrfDevice.ParseNMEA line info).2 with clock := now }).2.other =
      (SoftrfDevice.ParseNMEA line info).2.other ∧
    SoftrfDevice.ParseNMEA line (SoftrfDevice.ParseNMEA line info).2 = SoftrfDevice.ParseNMEA line info := by
  by_cases hc : VerifyNMEAChecksum line = true ∧ NMEAField line 0 = "$LK8EX1".toList
  · simp only [ParseNMEA_recognised line _ hc.1 hc.2]
    generalize NMEAField line 1 = p
    generalize NMEAField line 3 = v
    generalize NMEAField line 4 = t
    generalize NMEAField line 5 = b
    have r2 := applyFields_rest p v t b { applyFields p v t b info with clock := now }
    have p1 := applyFields_pressure p v t b info
    have p2 := applyFields_pressure p v t b { applyFields p v t b info with clock := now }
    have v1 := applyFields_vario p v t b info
    have v2 := applyFields_vario p v t b { applyFields p v t b info with clock := now }
    have t1 := applyFields_temperature p v t b info
    have t2 := applyFields_temperature p v t b { applyFields p v t b info with clock := now }
    have b1 := applyFields_voltage p v t b info
    have b2 := applyFields_voltage p v t b { applyFields p v t b info with clock := now }
    have ap := applyPressure_again (ParseDouble p) info
      { applyFields p v t b info with clock := now }
    have av := applyVario_again (ParseDouble v) info
      { applyFields p v t b info with clock := now }
    have at' := applyTemperature_again (ParseDouble t) info
      { applyFields p v t b info with clock := now }
    have ab := applyBattery_again (ParseDouble b) info
      { applyFields p v t b info with clock := now }
    refine ⟨trivial, ?_, ?_, r2.2.1, r2.2.2.1, ?_, ?_, ?_, ?_, ?_, ?_, r2.2.2.2, ?_⟩
    · rw [p2.1, p1.1]; exact ap.1 p1.1
    · rw [p2.2, p1.2]; exact ap.2.1 (congrArg Validity.available p1.2)
    · rw [v2.1, v1.1]; exact av.1 v1.1
    · rw [v2.2, v1.2]; exact av.2.1 (congrArg Validity.available v1.2)
    · rw [t2.1, t1.1]; exact at'.1 t1.1
    · rw [t2.2, t1.2]; exact at'.2 t1.2
    · rw [b2.1, b1.1]; exact ab.1 b1.1
    · rw [b2.2, b1.2]; exact ab.2.1 (congrArg Validity.available b1.2)
    · rw [applyFields_twice]
  · simp [ParseNMEA_rejected line _ hc]

/-- C9, as stated, fails on the code in two places. The sentence
`$LK8EX1,999999,1500,9999,99,999` is recognised and updates no slot of any
snapshot although its altitude field is the valid, non-sentinel number 1500.
The sentence `$LK8EX1,999999,99999,9999,15,999` updates the temperature slot
and leaves every timestamp of the snapshot as it was: the temperature slot
carries an availability flag and no timestamp. -/
theorem C9_altitude_counterexample :
    (VerifyNMEAChecksum altitudeOnly = true ∧
      NMEAField altitudeOnly 0 = "$LK8EX1".toList ∧
      (∀ info : NMEAInfo Unit, (SoftrfDevice.ParseNMEA altitudeOnly info).2 = info) ∧
      ParseDouble (NMEAField altitudeOnly 2) = some (Double.ofNat 1500) ∧
      Double.ne (Double.ofNat 1500) (Double.ofNat 99999) = true) ∧
    (VerifyNMEAChecksum temperatureOnly = true ∧
      NMEAField temperatureOnly 0 = "$LK8EX1".toList ∧
      ∀ info : NMEAInfo Unit,
        (SoftrfDevice.ParseNMEA temperatureOnly info).2 =
          { info with
            temperature := Temperature.FromCelsius (Double.ofNat 15)
            temperature_available := true }) := by
  have a1 : ParseDouble (NMEAField altitudeOnly 1) = some (Double.ofNat 999999) := by decide!
  have a2 : ParseDouble (NMEAField altitudeOnly 2) = some (Double.ofNat 1500) := by decide!
  have a3 : ParseDouble (NMEAField altitudeOnly 3) = some (Double.ofNat 9999) := by decide!
  have a4 : ParseDouble (NMEAField altitudeOnly 4) = some (Double.ofNat 99) := by decide!
  have a5 : ParseDouble (NMEAField altitudeOnly 5) = some (Double.ofNat 999) := by decide!
  have t1 : ParseDouble (NMEAField temperatureOnly 1) = some (Double.ofNat 999999) := by
    decide!
  have t3 : ParseDouble (NMEAField temperatureOnly 3) = some (Double.ofNat 9999) := by decide!
  have t4 : ParseDouble (NMEAField temperatureOnly 4) = some (Double.ofNat 15) := by decide!
  have t5 : ParseDouble (NMEAField temperatureOnly 5) = some (Double.ofNat 999) := by decide!
  have s1 : Double.ne (Double.ofNat 999999) (Double.ofNat 999999) = false := by decide!
  have s3 : Double.ne (Double.ofNat 9999) (Double.ofNat 9999) = false := by decide!
  have s4 : Double.ne (Double.ofNat 99) (Double.ofNat 99) = false := by decide!
  have s5 : Double.ne (Double.ofNat 999) (Double.ofNat 999) = false := by decide!
  have n4 : Double.ne (Double.ofNat 15) (Double.ofNat 99) = true := by decide!
  refine ⟨⟨by decide, by decide, fun info => ?_, a2, by decide!⟩, by decide, by decide,
    fun info => ?_⟩
  · rw [ParseNMEA_recognised _ info (by decide) (by decide)]
    unfold applyFields
    rw [a1, a3, a4, a5]
    simp [applyPressure, applyVario, applyTemperature, applyBattery, s1, s3, s4, s5]
  · rw [ParseNMEA_recognised _ info (by decide) (by decide)]
    unfold applyFields
    rw [t1, t3, t4, t5]
    simp [applyPressure, applyVario, applyTemperature, applyBattery, s1, s3, s5, n4]

/-- C9, amended. For a checksum-valid `$LK8EX1` sentence: if `ParseNMEA`
updates no slot (it leaves every snapshot as it was), then each of the
pressure, vario, temperature and battery fields is empty, non-numeric, missing
or parses to a double equal to its sentinel; the altitude field is not
constrained. Otherwise at least one of the four slots holds the decoded value
after the call and is marked available: pressure, vario and battery are
stamped with the snapshot clock, temperature is flagged available. -/
theorem C9_no_update_only_if_absent {Other : Type} (line : List Char)
    (info : NMEAInfo Other)
    (hck : VerifyNMEAChecksum line = true)
    (hty : NMEAField line 0 = "$LK8EX1".toList) :
    ((∀ s : NMEAInfo Unit, (SoftrfDevice.ParseNMEA line s).2 = s) →
      (ParseDouble (NMEAField line 1) = none ∨
        ∃ d, ParseDouble (NMEAField line 1) = some d ∧
          Double.ne d (Double.ofNat 999999) = false) ∧
      (ParseDouble (NMEAField line 3) = none ∨
        ∃ d, ParseDouble (NMEAField line 3) = some d ∧
          Double.ne d (Double.ofNat 9999) = false) ∧
      (ParseDouble (NMEAField line 4) = none ∨
        ∃ d, ParseDouble (NMEAField line 4) = some d ∧
          Double.ne d (Double.ofNat 99) = false) ∧
      (ParseDouble (NMEAField line 5) = none ∨
        ∃ d, ParseDouble (NMEAField line 5) = some d ∧
          Double.ne d (Double.ofNat 999) = false)) ∧
    (¬((ParseDouble (NMEAField line 1) = none ∨
          ∃ d, ParseDouble (NMEAField line 1) = some d ∧
            Double.ne d (Double.ofNat 999999) = false) ∧
        (ParseDouble (NMEAField line 3) = none ∨
          ∃ d, ParseDouble (NMEAField line 3) = some d ∧
            Double.ne d (Double.ofNat 9999) = false) ∧
        (ParseDouble (NMEAField line 4) = none ∨
          ∃ d, ParseDouble (NMEAField line 4) = some d ∧
            Double.ne d (Double.ofNat 99) = false) ∧
        (ParseDouble (NMEAField line 5) = none ∨
          ∃ d, ParseDouble (NMEAField line 5) = some d ∧
            Double.ne d (Double.ofNat 999) = false)) →
      (∃ p, ParseDouble (NMEAField line 1) = some p ∧
        Double.ne p (Double.ofNat 999999) = true ∧
        (SoftrfDevice.ParseNMEA line info).2.static_pressure =
          AtmosphericPressure.HectoPascal p ∧
        (SoftrfDevice.ParseNMEA line info).2.static_pressure_available =
          ⟨true, info.clock⟩) ∨
      (∃ v, ParseDouble (NMEAField line 3) = some v ∧
        Double.ne v (Double.ofNat 9999) = true ∧
        (SoftrfDevice.ParseNMEA line info).2.total_energy_vario =
          Double.div v (Double.ofNat 100) ∧
        (SoftrfDevice.ParseNMEA line info).2.total_energy_vario_available =
          ⟨true, info.clock⟩) ∨
      (∃ t, ParseDouble (NMEAField line 4) = some t ∧
        Double.ne t (Double.ofNat 99) = true ∧
        (SoftrfDevice.ParseNMEA line info).2.temperature = Temperature.FromCelsius t ∧
        (SoftrfDevice.ParseNMEA line info).2.temperature_available = true) ∨
      (∃ b, ParseDouble (NMEAField line 5) = some b ∧
        Double.ne b (Double.ofNat 999) = true ∧
        (SoftrfDevice.ParseNMEA line info).2.voltage = b ∧
        (SoftrfDevice.ParseNMEA line info).2.voltage_available = ⟨true, info.clock⟩)) := by
  have hP := fun (s : NMEAInfo Unit) => applyFields_pressure (NMEAField line 1)
    (NMEAField line 3) (NMEAField line 4) (NMEAField line 5) s
  have hV := fun (s : NMEAInfo Unit) => applyFields_vario (NMEAField line 1)
    (NMEAField line 3) (NMEAField line 4) (NMEAField line 5) s
  have hT := fun (s : NMEAInfo Unit) => applyFields_temperature (NMEAField line 1)
    (NMEAField line 3) (NMEAField line 4) (NMEAField line 5) s
  have hB := fun (s : NMEAInfo Unit) => applyFields_voltage (NMEAField line 1)
    (NMEAField line 3) (NMEAField line 4) (NMEAField line 5) s
  have iP := applyFields_pressure (NMEAField line 1) (NMEAField line 3)
    (NMEAField line 4) (NMEAField line 5) info
  have iV := applyFields_vario (NMEAField line 1) (NMEAField line 3)
    (NMEAField line 4) (NMEAField line 5) info
  have iT := applyFields_temperature (NMEAField line 1) (NMEAField line 3)
    (NMEAField line 4) (NMEAField line 5) info
  have iB := applyFields_voltage (NMEAField line 1) (NMEAField line 3)
    (NMEAField line 4) (NMEAField line 5) info
  constructor
  · intro hno
    have h := hno sampleInfo
    rw [ParseNMEA_recognised line sampleInfo hck hty] at h
    dsimp only at h
    refine ⟨?_, ?_, ?_, ?_⟩
    · by_contra hcon
      obtain ⟨p, hp, hp9⟩ := valid_of_not_absent _ _ hcon
      have a := (hP sampleInfo).2
      rw [h, hp] at a
      simp [applyPressure, hp9, NMEAInfo.ProvideStaticPressure, Validity.Update,
        sampleInfo] at a
    · by_contra hcon
      obtain ⟨v, hv, hv9⟩ := valid_of_not_absent _ _ hcon
      have a := (hV sampleInfo).2
      rw [h, hv] at a
      simp [applyVario, hv9, NMEAInfo.ProvideTotalEnergyVario, Validity.Update,
        sampleInfo] at a
    · by_contra hcon
      obtain ⟨t, ht, ht9⟩ := valid_of_not_absent _ _ hcon
      have a := (hT sampleInfo).2
      rw [h, ht] at a
      simp [applyTemperature, ht9, sampleInfo] at a
    · by_contra hcon
      obtain ⟨b, hb, hb9⟩ := valid_of_not_absent _ _ hcon
      have a := (hB sampleInfo).2
      rw [h, hb] at a
      simp [applyBattery, hb9, Validity.Update, sampleInfo] at a
  · intro hnot
    rw [ParseNMEA_recognised line info hck hty]
    dsimp only
    by_cases c1 : (ParseDouble (NMEAField line 1) = none ∨
        ∃ d, ParseDouble (NMEAField line 1) = some d ∧
          Double.ne d (Double.ofNat 999999) = false)
    · by_cases c3 : (ParseDouble (NMEAField line 3) = none ∨
          ∃ d, ParseDouble (NMEAField line 3) = some d ∧
            Double.ne d (Double.ofNat 9999) = false)
      · by_cases c4 : (ParseDouble (NMEAField line 4) = none ∨
            ∃ d, ParseDouble (NMEAField line 4) = some d ∧
              Double.ne d (Double.ofNat 99) = false)
        · by_cases c5 : (ParseDouble (NMEAField line 5) = none ∨
              ∃ d, ParseDouble (NMEAField line 5) = some d ∧
                Double.ne d (Double.ofNat 999) = false)
          · exact absurd ⟨c1, c3, c4, c5⟩ hnot
          · obtain ⟨b, hb, hb9⟩ := valid_of_not_absent _ _ c5
            refine Or.inr (Or.inr (Or.inr ⟨b, hb, hb9, ?_, ?_⟩))
            · rw [iB.1, hb]; simp [applyBattery, hb9]
            · rw [iB.2, hb]; simp [applyBattery, hb9, Validity.Update]
        · obtain ⟨t, ht, ht9⟩ := valid_of_not_absent _ _ c4
          refine Or.inr (Or.inr (Or.inl ⟨t, ht, ht9, ?_, ?_⟩))
          · rw [iT.1, ht]; simp [applyTemperature, ht9]
          · rw [iT.2, ht]; simp [applyTemperature, ht9]
      · obtain ⟨v, hv, hv9⟩ := valid_of_not_absent _ _ c3
        refine Or.inr (Or.inl ⟨v, hv, hv9, ?_, ?_⟩)
        · rw [iV.1, hv]; simp [applyVario, hv9, NMEAInfo.ProvideTotalEnergyVario]
        · rw [iV.2, hv]
          simp [applyVario, hv9, NMEAInfo.ProvideTotalEnergyVario, Validity.Update]
    · obtain ⟨p, hp, hp9⟩ := valid_of_not_absent _ _ c1
      refine Or.inl ⟨p, hp, hp9, ?_, ?_⟩
      · rw [iP.1, hp]; simp [applyPressure, hp9, NMEAInfo.ProvideStaticPressure]
      · rw [iP.2, hp]
        simp [applyPressure, hp9, NMEAInfo.ProvideStaticPressure, Validity.Update]

/-- The sentence of sentinels updates no slot and each of its four fields is
its sentinel; so does the sentence whose pressure is written
`999999.00000000001`. Scenario B has valid fields and one of its slots is
written and marked available. -/
theorem C9_amended_witness :
    ((ParseDouble (NMEAField nearSentinel 1) = none ∨
        ∃ d, ParseDouble (NMEAField nearSentinel 1) = some d ∧
          Double.ne d (Double.ofNat 999999) = false) ∧
      (ParseDouble (NMEAField nearSentinel 3) = none ∨
        ∃ d, ParseDouble (NMEAField nearSentinel 3) = some d ∧
          Double.ne d (Double.ofNat 9999) = false) ∧
      (ParseDouble (NMEAField nearSentinel 4) = none ∨
        ∃ d, ParseDouble (NMEAField nearSentinel 4) = some d ∧
          Double.ne d (Double.ofNat 99) = false) ∧
      (ParseDouble (NMEAField nearSentinel 5) = none ∨
        ∃ d, ParseDouble (NMEAField nearSentinel 5) = some d ∧
          Double.ne d (Double.ofNat 999) = false)) ∧
    ((∃ p, ParseDouble (NMEAField scenarioB 1) = some p ∧
        Double.ne p (Double.ofNat 999999) = true ∧
        (SoftrfDevice.ParseNMEA scenarioB sampleInfo).2.static_pressure =
          AtmosphericPressure.HectoPascal p ∧
        (SoftrfDevice.ParseNMEA scenarioB sampleInfo).2.static_pressure_available =
          ⟨true, 7⟩) ∨
      (∃ v, ParseDouble (NMEAField scenarioB 3) = some v ∧
        Double.ne v (Double.ofNat 9999) = true ∧
        (SoftrfDevice.ParseNMEA scenarioB sampleInfo).2.total_energy_vario =
          Double.div v (Double.ofNat 100) ∧
        (SoftrfDevice.ParseNMEA scenarioB sampleInfo).2.total_energy_vario_available =
          ⟨true, 7⟩) ∨
      (∃ t, ParseDouble (NMEAField scenarioB 4) = some t ∧
        Double.ne t (Double.ofNat 99) = true ∧
        (SoftrfDevice.ParseNMEA scenarioB sampleInfo).2.temperature =
          Temperature.FromCelsius t ∧
        (SoftrfDevice.ParseNMEA scenarioB sampleInfo).2.temperature_available = true) ∨
      (∃ b, ParseDouble (NMEAField scenarioB 5) = some b ∧
        Double.ne b (Double.ofNat 999) = true ∧
        (SoftrfDevice.ParseNMEA scenarioB sampleInfo).2.voltage = b ∧
        (SoftrfDevice.ParseNMEA scenarioB sampleInfo).2.voltage_available = ⟨true, 7⟩)) := by
  have n1 : ParseDouble (NMEAField nearSentinel 1) = some (Double.ofNat 999999) := by decide!
  have n3 : ParseDouble (NMEAField nearSentinel 3) = some (Double.ofNat 9999) := by decide!
  have n4 : ParseDouble (NMEAField nearSentinel 4) = some (Double.ofNat 99) := by decide!
  have n5 : ParseDouble (NMEAField nearSentinel 5) = some (Double.ofNat 999) := by decide!
  have s1 : Double.ne (Double.ofNat 999999) (Double.ofNat 999999) = false := by decide!
  have s3 : Double.ne (Double.ofNat 9999) (Double.ofNat 9999) = false := by decide!
  have s4 : Double.ne (Double.ofNat 99) (Double.ofNat 99) = false := by decide!
  have s5 : Double.ne (Double.ofNat 999) (Double.ofNat 999) = false := by decide!
  have b3 : ParseDouble (NMEAField scenarioB 3) = some (Double.ofNat 250) := by decide!
  have b9 : Double.ne (Double.ofNat 250) (Double.ofNat 9999) = true := by decide!
  constructor
  · apply (C9_no_update_only_if_absent nearSentinel sampleInfo (by decide) (by decide)).1
    intro s
    rw [ParseNMEA_recognised _ s (by decide) (by decide)]
    unfold applyFields
    rw [n1, n3, n4, n5]
    simp [applyPressure, applyVario, applyTemperature, applyBattery, s1, s3, s4, s5]
  · apply (C9_no_update_only_if_absent scenarioB sampleInfo (by decide) (by decide)).2
    intro h
    rcases h.2.1 with hv | ⟨d, hd, hs⟩
    · rw [b3] at hv
      cases hv
    · rw [b3, Option.some.injEq] at hd
      rw [← hd, b9] at hs
      cases hs

/-- C10. Decoding can modify only four measurements. After `SoftrfDevice.ParseNMEA`, for
every line and every prior snapshot, the clock, the barometric-altitude slot
and every remaining member are as before; the snapshot after the call is the
prior snapshot with, at most, the static-pressure slot, the total-energy vario
slot, temperature with its flag and voltage with its validity replaced. -/
theorem C10_frame {Other : Type} (line : List Char) (info : NMEAInfo Other) :
    (SoftrfDevice.ParseNMEA line info).2.clock = info.clock ∧
    (SoftrfDevice.ParseNMEA line info).2.baro_altitude = info.baro_altitude ∧
    (SoftrfDevice.ParseNMEA line info).2.baro_altitude_available = info.baro_altitude_available ∧
    (SoftrfDevice.ParseNMEA line info).2.other = info.other ∧
    (SoftrfDevice.ParseNMEA line info).2 =
      { info with
        static_pressure := (SoftrfDevice.ParseNMEA line info).2.static_pressure
        static_pressure_available := (SoftrfDevice.ParseNMEA line info).2.static_pressure_available
        total_energy_vario := (SoftrfDevice.ParseNMEA line info).2.total_energy_vario
        total_energy_vario_available :=
          (SoftrfDevice.ParseNMEA line info).2.total_energy_vario_available
        temperature := (SoftrfDevice.ParseNMEA line info).2.temperature
        temperature_available := (SoftrfDevice.ParseNMEA line info).2.temperature_available
        voltage := (SoftrfDevice.ParseNMEA line info).2.voltage
        voltage_available := (SoftrfDevice.ParseNMEA line info).2.voltage_available } := by
  by_cases hc : VerifyNMEAChecksum line = true ∧ NMEAField line 0 = "$LK8EX1".toList
  · rw [ParseNMEA_recognised line info hc.1 hc.2]
    have r := applyFields_rest (NMEAField line 1) (NMEAField line 3) (NMEAField line 4)
      (NMEAField line 5) info
    refine ⟨r.1, r.2.1, r.2.2.1, r.2.2.2, ?_⟩
    apply NMEAInfo.eq_of_members
    · exact r.1
    · rfl
    · rfl
    · exact r.2.1
    · exact r.2.2.1
    · rfl
    · rfl
    · rfl
    · rfl
    · rfl
    · rfl
    · exact r.2.2.2
  · rw [ParseNMEA_rejected line info hc]
    exact ⟨rfl, rfl, rfl, rfl, rfl⟩


end XCSoar
